import Mathlib

/-!
Shallow embedding of the curaios entity-resolution core
(`src/core/normalization.py`, `src/core/search_query.py`,
`src/core/validation.py`, tables from `src/config/constants.py`).

Python strings are modelled as Lean `String` (ASCII model of `str.lower`,
`str.capitalize`, `str.strip` and of the regex classes `\s`, `\w`, `\d`).
Python exceptions are modelled with `Except PyErr`.  The external adapters
(NCBI taxonomy / MeSH lookups, the LLM service, the fuzzy matcher) and the
local mapping tables, which live outside the core, are parameters of an
environment record `Env`, so every theorem quantifies over all possible
adapter behaviours unless it exhibits a concrete environment.
-/

/-- Python `\s` (ASCII model): the whitespace characters recognised by
`str.strip` and the regex class `\s`. -/
def isPySpace (c : Char) : Bool :=
  c = ' ' || c = '\t' || c = '\n' || c = '\r' || c = '\x0b' || c = '\x0c'

/-- Python `\w` (ASCII model): letters, digits and underscore. -/
def isWordChar (c : Char) : Bool :=
  c.isAlphanum || c = '_'

/-- Python `str.strip()` on the character list (ASCII whitespace model). -/
def pyStripList (cs : List Char) : List Char :=
  ((cs.dropWhile isPySpace).reverse.dropWhile isPySpace).reverse

/-- `re.sub(r'\s+', ' ', ·)`: replace every maximal whitespace run by a
single space.  `prevSpace` records whether the previous character was part
of a whitespace run already rewritten. -/
def collapseWS : Bool → List Char → List Char
  | _, [] => []
  | prevSpace, c :: cs =>
    if isPySpace c then
      if prevSpace then collapseWS true cs else ' ' :: collapseWS true cs
    else c :: collapseWS false cs

/-- Allow-list of `clean_input`: characters kept by
`re.sub(r'[^\w\s\-\.]', '', ·)`. -/
def cleanAllowed (c : Char) : Bool :=
  isWordChar c || isPySpace c || c = '-' || c = '.'

/-- `clean_input` from `src/core/normalization.py`: strip, collapse
whitespace runs to single spaces, then delete disallowed characters. -/
def clean_input (input_value : String) : String :=
  ⟨(collapseWS false (pyStripList input_value.data)).filter cleanAllowed⟩

/-- Python `str.capitalize()` (ASCII model): upper-case the first
character, lower-case the rest. -/
def pyCapitalize (s : String) : String :=
  match s.data with
  | [] => ""
  | c :: cs => ⟨c.toUpper :: cs.map Char.toLower⟩

/-- Python `str.lower()` (ASCII model). -/
def pyLower (s : String) : String :=
  ⟨s.data.map Char.toLower⟩

example : clean_input "  hello   world! " = "hello world" := by decide
example : clean_input "a @ b" = "a  b" := by decide
example : pyCapitalize "hOMO sapiens" = "Homo sapiens" := by decide

/-- Python exceptions relevant to the core. -/
inductive PyErr where
  /-- `NormalizationError` from `utils.error_handling`. -/
  | normalizationError (msg : String)
  /-- `ValidationError` from `utils.error_handling`. -/
  | validationError (msg : String)
  /-- `KeyError` on a missing dictionary key. -/
  | keyError
  /-- any other exception (network errors, adapter bugs, ...). -/
  | other (msg : String)
  deriving DecidableEq, Repr

/-- A resolution-result dictionary (the `ResolvedEntity` of the spec):
the keys read or written by the cascade.  `canonical_name = ""` plays the
role of a missing / falsy `canonical_name` key. -/
structure ResultRec where
  canonical_name : String := ""
  confidence : ℚ := 0
  original_input : String := ""
  source : String := ""
  is_special_case : Bool := false
  expanded_terms : List String := []
  authority_id : Option String := none
  alternatives : List String := []
  deriving DecidableEq, Repr

/-- One entry of `SPECIAL_CASE_INPUTS` (`src/config/constants.py`). -/
structure SpecialCase where
  type : String
  expansion : List String
  deriving DecidableEq, Repr

/-- `COMMON_VIRUSES` from `src/config/constants.py`. -/
def COMMON_VIRUSES : List String :=
  ["HIV", "SARS-CoV-2", "H1N1", "Ebola virus", "Zika virus",
   "Hepatitis C virus", "Human papillomavirus", "Influenza virus",
   "Herpes simplex virus", "Dengue virus"]

/-- `SPECIAL_CASE_INPUTS` from `src/config/constants.py`, as an
association list (Python dicts iterate in insertion order). -/
def SPECIAL_CASE_INPUTS : List (String × SpecialCase) :=
  [("virus", ⟨"organism", COMMON_VIRUSES⟩),
   ("viruses", ⟨"organism", COMMON_VIRUSES⟩),
   ("cancer", ⟨"disease", ["neoplasm", "tumor", "carcinoma", "leukemia", "lymphoma"]⟩),
   ("infectious disease", ⟨"disease", ["infection", "bacterial infection", "viral infection"]⟩)]

/-- `DATA_TYPE_VARIANTS` from `src/config/constants.py`. -/
def DATA_TYPE_VARIANTS : List (String × List String) :=
  [("RNAseq", ["rna-seq", "rna seq", "rnaseq", "rna sequencing", "transcriptomics"]),
   ("scRNAseq", ["single cell rna seq", "scrna-seq", "single-cell rna-seq",
                 "single cell transcriptomics", "sc-rna-seq", "single cell sequencing"]),
   ("Microarray", ["array", "expression array", "gene expression array", "chip"]),
   ("WGS", ["whole genome sequencing", "genome sequencing", "complete genome"]),
   ("WES", ["whole exome sequencing", "exome sequencing", "exome"]),
   ("ATAC-seq", ["atac seq", "atacseq", "chromatin accessibility"]),
   ("ChIP-seq", ["chip seq", "chipseq", "chromatin immunoprecipitation"]),
   ("Proteomics", ["mass spectrometry", "ms/ms", "protein expression", "proteome"]),
   ("Metabolomics", ["metabolite profiling", "metabolite analysis", "metabolome"]),
   ("Metagenomics", ["metagenomic sequencing", "microbiome sequencing", "microbiome analysis"])]

/-- Dictionary lookup on an association list (Python `d[k]` / `k in d`). -/
def dictGet (d : List (String × α)) (k : String) : Option α :=
  (d.find? fun p => p.1 = k).map Prod.snd

/-- The LLM service object returned by `get_llm_service`
(`src/core/llm_service.py`).  `expand_search_query = none` models a
service object lacking that method (the `hasattr` check in
`enhance_query_with_llm`). -/
structure LLMSvc where
  validate_entity : String → String → Except PyErr ResultRec
  expand_search_query :
    Option (Option String → Option String → Option String → Except PyErr String)

/-- Environment of the cascade: the local mapping tables
(`config/mappings.py`, not shipped under `src/`; the spec only fixes their
shape — lower-cased synonym key to a partial template — so they are
parameters), the external authority adapters, the fuzzy matcher
(`utils/fuzzy_matching.py`, likewise a parameter: it returns a best key
and a score, or `none` below threshold) and the LLM service. -/
structure Env where
  ORGANISM_MAPPINGS : List (String × ResultRec)
  DISEASE_MAPPINGS : List (String × ResultRec)
  DATA_TYPE_MAPPINGS : List (String × ResultRec)
  query_ncbi_taxonomy : String → Except PyErr (Option ResultRec)
  query_ncbi_mesh : String → Except PyErr (Option ResultRec)
  find_best_match : String → List String → ℚ → Option String × ℚ
  get_llm_service : Except PyErr LLMSvc

/-- The LLM tier shared by the three kind-specific normalizers: call
`get_llm_service().validate_entity(...)`, then overwrite
`original_input` and `source`. -/
def llmTier (env : Env) (input_value kind : String) : Except PyErr ResultRec :=
  match env.get_llm_service with
  | .error e => .error e
  | .ok svc =>
    match svc.validate_entity input_value kind with
    | .error e => .error e
    | .ok llm_result =>
      .ok { llm_result with original_input := input_value, source := "llm" }

/-- Tier 1 of the cascade: exact local match on the lower-cased input
(`MAPPINGS[lowercase_input].copy()` plus the three overwrites). -/
def local_step (mappings : List (String × ResultRec)) (input_value : String) :
    Option ResultRec :=
  match dictGet mappings (pyLower input_value) with
  | some tmpl =>
    some { tmpl with confidence := 1, original_input := input_value,
                     source := "local_mapping" }
  | none => none

/-- Tier 2 of the cascade: the `try`-wrapped authority lookup.  A raised
exception or a falsy result (empty record or empty `canonical_name`)
yields `none` (fall through); a hit is tagged with `tag`
(`"ncbi_taxonomy"` or `"ncbi_mesh"` in the source). -/
def authority_step (resp : Except PyErr (Option ResultRec))
    (input_value tag : String) : Option ResultRec :=
  match resp with
  | .error _ => none
  | .ok none => none
  | .ok (some r) =>
    if r.canonical_name ≠ "" then
      some { r with original_input := input_value, source := tag }
    else none

/-- Tier 3 of the cascade: act on the `find_best_match` result.  A truthy
best key is looked up in the table (`MAPPINGS[best_match]` raises
`KeyError` when the matcher returned a non-key); otherwise control passes
to `next`, the following tier. -/
def fuzzy_step (mappings : List (String × ResultRec)) (best : Option String × ℚ)
    (input_value : String) (next : Except PyErr ResultRec) : Except PyErr ResultRec :=
  match best with
  | (some best_match, score) =>
    if best_match ≠ "" then
      match dictGet mappings best_match with
      | some tmpl =>
        .ok { tmpl with confidence := score, original_input := input_value,
                        source := "fuzzy_mapping" }
      | none => .error .keyError
    else next
  | (none, _) => next

/-- `normalize_organism` from `src/core/normalization.py`. -/
def normalize_organism (env : Env) (input_value : String) : Except PyErr ResultRec :=
  match local_step env.ORGANISM_MAPPINGS input_value with
  | some r => .ok r
  | none =>
    match authority_step (env.query_ncbi_taxonomy input_value) input_value "ncbi_taxonomy" with
    | some r => .ok r
    | none =>
      fuzzy_step env.ORGANISM_MAPPINGS
        (env.find_best_match input_value (env.ORGANISM_MAPPINGS.map Prod.fst) (85/100))
        input_value (llmTier env input_value "organism")

/-- `normalize_disease` from `src/core/normalization.py`. -/
def normalize_disease (env : Env) (input_value : String) : Except PyErr ResultRec :=
  match local_step env.DISEASE_MAPPINGS input_value with
  | some r => .ok r
  | none =>
    match authority_step (env.query_ncbi_mesh input_value) input_value "ncbi_mesh" with
    | some r => .ok r
    | none =>
      fuzzy_step env.DISEASE_MAPPINGS
        (env.find_best_match input_value (env.DISEASE_MAPPINGS.map Prod.fst) (85/100))
        input_value (llmTier env input_value "disease")

/-- Bidirectional substring test used by the keyword tier:
`variant.lower() in lowercase_input or lowercase_input in variant.lower()`. -/
def strContains (hay needle : String) : Bool :=
  (List.range (hay.data.length + 1)).any fun i =>
    (hay.data.drop i).take needle.data.length == needle.data

/-- The keyword tier of `normalize_data_type`: first canonical data type
one of whose variants is in bidirectional substring containment with the
lower-cased input. -/
def keyword_step (lowercase_input : String) : Option String :=
  DATA_TYPE_VARIANTS.findSome? fun (canonical, variants) =>
    variants.findSome? fun variant =>
      if strContains lowercase_input (pyLower variant) ||
         strContains (pyLower variant) lowercase_input then
        some canonical
      else none

/-- `normalize_data_type` from `src/core/normalization.py`. -/
def normalize_data_type (env : Env) (input_value : String) : Except PyErr ResultRec :=
  match local_step env.DATA_TYPE_MAPPINGS input_value with
  | some r => .ok r
  | none =>
    fuzzy_step env.DATA_TYPE_MAPPINGS
      (env.find_best_match input_value (env.DATA_TYPE_MAPPINGS.map Prod.fst) (85/100))
      input_value
      (match keyword_step (pyLower input_value) with
       | some canonical =>
         .ok { canonical_name := canonical, confidence := 8/10,
               original_input := input_value, source := "keyword_match" }
       | none => llmTier env input_value "data_type")

/-- `normalize_generic` from `src/core/normalization.py` (cleans its input
a second time; never fails). -/
def normalize_generic (input_value : String) : ResultRec :=
  let cleaned := clean_input input_value
  { canonical_name := pyCapitalize cleaned, confidence := 7/10,
    original_input := input_value, source := "generic" }

/-- `handle_special_case` from `src/core/normalization.py`
(`SPECIAL_CASE_INPUTS[input_value]` raises `KeyError` when absent). -/
def handle_special_case (input_value : String) : Except PyErr ResultRec :=
  match dictGet SPECIAL_CASE_INPUTS input_value with
  | none => .error .keyError
  | some special_case =>
    .ok { canonical_name := pyCapitalize input_value, confidence := 9/10,
          original_input := input_value, source := "special_case",
          is_special_case := true, expanded_terms := special_case.expansion }

/-- The type-dispatch inside the `try` of `normalize_input`. -/
def run_normalizer (env : Env) (cleaned_input input_type : String) :
    Except PyErr ResultRec :=
  if input_type = "organism" then normalize_organism env cleaned_input
  else if input_type = "disease" then normalize_disease env cleaned_input
  else if input_type = "data_type" then normalize_data_type env cleaned_input
  else .ok (normalize_generic cleaned_input)

/-- The `except`-branch record of `normalize_input`. -/
def fallback_record (input_value cleaned_input : String) : ResultRec :=
  { canonical_name := pyCapitalize cleaned_input, confidence := 1/2,
    original_input := input_value, source := "fallback" }

/-- The special-case guard of `normalize_input`
(`cleaned_input.lower() in SPECIAL_CASE_INPUTS` and the declared type
matches the requested type). -/
def special_hit (cleaned_input input_type : String) : Bool :=
  match dictGet SPECIAL_CASE_INPUTS (pyLower cleaned_input) with
  | some special_case => special_case.type == input_type
  | none => false

/-- `normalize_input` from `src/core/normalization.py`. -/
def normalize_input (env : Env) (input_value input_type : String) :
    Except PyErr ResultRec :=
  if input_value = "" then
    .error (.normalizationError ("Empty input for " ++ input_type))
  else
    let cleaned_input := clean_input input_value
    if special_hit cleaned_input input_type then
      handle_special_case (pyLower cleaned_input)
    else
      match run_normalizer env cleaned_input input_type with
      | .ok r => .ok r
      | .error _ => .ok (fallback_record input_value cleaned_input)

/-! ## Query composer (`src/core/search_query.py`) -/

/-- Python `sep.join(parts)`. -/
def pyJoin (sep : String) : List String → String
  | [] => ""
  | x :: xs => xs.foldl (fun acc p => acc ++ sep ++ p) x

/-- The keys of a normalized-entity dictionary read by
`build_search_query`: `.get("canonical_name")` (`none` when the key is
absent or `None`), `.get("is_special_case")` (falsy default) and
`.get("expanded_terms", [])`. -/
structure EntityInfo where
  canonical_name : Option String := none
  is_special_case : Bool := false
  expanded_terms : List String := []
  deriving DecidableEq, Repr

/-- Python truthiness of an optional string (`None` and `""` are falsy). -/
def optTruthy : Option String → Bool
  | none => false
  | some s => s ≠ ""

/-- `^(\d{4})-(\d{4})$` under `re.match` (ASCII `\d` model): the two
year groups on a match.  Python's `$` matches at the end of the string or
just before one trailing newline, so the whole string is the nine pattern
characters optionally followed by a single final `'\n'`. -/
def yearYearMatch (s : String) : Option (String × String) :=
  let cs := s.data
  if (cs.length = 9 || (cs.length = 10 && cs.getD 9 ' ' == '\n')) &&
     (cs.take 4).all Char.isDigit &&
     cs.getD 4 ' ' == '-' && ((cs.drop 5).take 4).all Char.isDigit then
    some (⟨cs.take 4⟩, ⟨(cs.drop 5).take 4⟩)
  else none

/-- `^(\d{4}-\d{2}-\d{2}):(\d{4}-\d{2}-\d{2})$` under `re.match`
(ASCII `\d` model).  As with `yearYearMatch`, Python's `$` also matches
just before one trailing newline. -/
def dateDateMatch (s : String) : Option (String × String) :=
  let cs := s.data
  if (cs.length = 21 || (cs.length = 22 && cs.getD 21 ' ' == '\n')) &&
     (cs.take 4).all Char.isDigit && cs.getD 4 ' ' == '-' &&
     ((cs.drop 5).take 2).all Char.isDigit && cs.getD 7 ' ' == '-' &&
     ((cs.drop 8).take 2).all Char.isDigit && cs.getD 10 ' ' == ':' &&
     ((cs.drop 11).take 4).all Char.isDigit && cs.getD 15 ' ' == '-' &&
     ((cs.drop 16).take 2).all Char.isDigit && cs.getD 18 ' ' == '-' &&
     ((cs.drop 19).take 2).all Char.isDigit then
    some (⟨cs.take 10⟩, ⟨(cs.drop 11).take 10⟩)
  else none

/-- `parse_date_range` from `src/core/search_query.py`. -/
def parse_date_range (date_range : String) : String :=
  match yearYearMatch date_range with
  | some (start_year, end_year) =>
    "publication_date:[" ++ start_year ++ "-01-01 TO " ++ end_year ++ "-12-31]"
  | none =>
    match dateDateMatch date_range with
    | some (start_date, end_date) =>
      "publication_date:[" ++ start_date ++ " TO " ++ end_date ++ "]"
    | none => "publication_date:" ++ date_range

/-- The special-case rewriting of lines 47–56 of `build_search_query`,
applied to the organism and disease entities: a special case with a
non-empty expansion replaces the bare canonical name by a parenthesised
`OR`-group of parenthesised terms. -/
def specialName (e? : Option EntityInfo) : Option String :=
  match e? with
  | none => none
  | some e =>
    if e.is_special_case then
      match e.expanded_terms.map (fun term => "(" ++ term ++ ")") with
      | [] => e.canonical_name
      | ts => some ("(" ++ pyJoin " OR " ts ++ ")")
    else e.canonical_name

/-- The three entity names used by `build_search_query` (data-type gets no
special-case rewriting in the source). -/
def entity_names (organism disease data_type : Option EntityInfo) :
    Option String × Option String × Option String :=
  (specialName organism, specialName disease,
   (data_type.bind EntityInfo.canonical_name))

/-- One `field:(value)` clause per truthy entity name. -/
def entityClause (field : String) (name : Option String) : List String :=
  match name with
  | some s => if s ≠ "" then [field ++ ":(" ++ s ++ ")"] else []
  | none => []

/-- `filter_parts` of `build_search_query`: samples clause (skipped for a
falsy, i.e. zero or absent, `min_samples`), date clause, one `key:value`
clause per extra filter pair. -/
def filter_parts (min_samples : Option Int) (date_range : Option String)
    (additional_filters : Option (List (String × String))) : List String :=
  (match min_samples with
   | some n => if n ≠ 0 then ["samples:>=" ++ toString n] else []
   | none => []) ++
  (match date_range with
   | some s => if s ≠ "" then [parse_date_range s] else []
   | none => []) ++
  (match additional_filters with
   | some l => if l ≠ [] then l.map (fun p => p.1 ++ ":" ++ p.2) else []
   | none => [])

/-- Deterministic composition (lines 58–84 of `build_search_query`) from
the already-rewritten entity names. -/
def combined_from (organism_name disease_name data_type_name : Option String)
    (min_samples : Option Int) (date_range : Option String)
    (additional_filters : Option (List (String × String))) : String :=
  let base_query_parts :=
    entityClause "organism" organism_name ++ entityClause "disease" disease_name ++
    entityClause "data_type" data_type_name
  let query := pyJoin " AND " base_query_parts
  let filters := pyJoin " AND " (filter_parts min_samples date_range additional_filters)
  if filters ≠ "" then query ++ " " ++ filters else query

/-- The deterministic query of steps 1–4: what `build_search_query`
returns when no LLM expansion is attempted or accepted. -/
def deterministic_query (organism disease data_type : Option EntityInfo)
    (min_samples : Option Int) (date_range : Option String)
    (additional_filters : Option (List (String × String))) : String :=
  let (organism_name, disease_name, data_type_name) :=
    entity_names organism disease data_type
  combined_from organism_name disease_name data_type_name
    min_samples date_range additional_filters

/-- `if x: parts.append(x)` — the truthy strings, in order. -/
def optList (x : Option String) : List String :=
  match x with
  | some s => if s ≠ "" then [s] else []
  | none => []

/-- `enhance_query_with_llm` from `src/core/search_query.py`:
`get_llm_service()` is called outside the inner `try`, so its exception
propagates; a missing `expand_search_query` method falls back to a local
`AND`-join of the truthy names; an exception in the method call is caught
and becomes `""`. -/
def enhance_query_with_llm (env : Env)
    (organism disease data_type : Option String) : Except PyErr String :=
  if !(optTruthy organism || optTruthy disease || optTruthy data_type) then
    .ok ""
  else
    match env.get_llm_service with
    | .error e => .error e
    | .ok llm_service =>
      match llm_service.expand_search_query with
      | some f =>
        match f organism disease data_type with
        | .ok s => .ok s
        | .error _ => .ok ""
      | none =>
        .ok (pyJoin " AND "
          (optList organism ++ optList disease ++ optList data_type))

/-- `build_search_query` from `src/core/search_query.py`. -/
def build_search_query (env : Env)
    (organism disease data_type : Option EntityInfo)
    (min_samples : Option Int) (date_range : Option String)
    (additional_filters : Option (List (String × String))) : String :=
  let (organism_name, disease_name, data_type_name) :=
    entity_names organism disease data_type
  let combined_query := combined_from organism_name disease_name data_type_name
    min_samples date_range additional_filters
  if optTruthy organism_name || optTruthy disease_name || optTruthy data_type_name then
    match enhance_query_with_llm env organism_name disease_name data_type_name with
    | .ok llm_query =>
      if llm_query ≠ "" && llm_query.length > combined_query.length then llm_query
      else combined_query
    | .error _ => combined_query
  else combined_query

/-! ## Generic validation (`src/core/validation.py`) -/

/-- Allow-list of `validate_generic`'s cleaning
`re.sub(r'[^\w\s\-\/\.\,\'\"]', '', ·)`. -/
def validateGenericAllowed (c : Char) : Bool :=
  isWordChar c || isPySpace c || c = '-' || c = '/' || c = '.' || c = ',' ||
  c = '\'' || c = '"'

/-- A word-boundary-delimited occurrence of the all-word-character token
`tok` at index `i` of `cs` (the regex `\btok\b`). -/
def tokenAt (cs tok : List Char) (i : Nat) : Bool :=
  ((cs.drop i).take tok.length == tok) &&
  (i == 0 || !isWordChar (cs.getD (i - 1) ' ')) &&
  !isWordChar (cs.getD (i + tok.length) ' ')

/-- `\b(select|insert|update|delete|drop|create|alter)\b.*\b(from|table|database)\b`
under `re.search` (`.` does not match a newline). -/
def sqlPairPattern (cs : List Char) : Bool :=
  (List.range (cs.length + 1)).any fun i =>
    ["select", "insert", "update", "delete", "drop", "create", "alter"].any fun v =>
      tokenAt cs v.data i &&
      (List.range (cs.length + 1)).any fun j =>
        decide (i + v.data.length ≤ j) &&
        ["from", "table", "database"].any (fun n => tokenAt cs n.data j) &&
        ((cs.drop (i + v.data.length)).take (j - (i + v.data.length))).all (· ≠ '\n')

/-- `\b(union\s+all|union\s+select)\b` under `re.search`. -/
def unionPattern (cs : List Char) : Bool :=
  (List.range (cs.length + 1)).any fun i =>
    ((cs.drop i).take 5 == "union".data) &&
    (i == 0 || !isWordChar (cs.getD (i - 1) ' ')) &&
    (List.range (cs.length + 1)).any fun k =>
      decide (1 ≤ k) && decide (i + 5 + k ≤ cs.length) &&
      ((cs.drop (i + 5)).take k).all isPySpace &&
      (["all", "select"].any fun t =>
        ((cs.drop (i + 5 + k)).take t.data.length == t.data) &&
        !isWordChar (cs.getD (i + 5 + k + t.data.length) ' '))

/-- `\-\-` under `re.search`: a `--` substring. -/
def dashDashPattern (cs : List Char) : Bool :=
  (List.range (cs.length + 1)).any fun i => (cs.drop i).take 2 == ['-', '-']

/-- `\/\*.*\*\/` under `re.search` (`.` does not match a newline). -/
def commentPattern (cs : List Char) : Bool :=
  (List.range (cs.length + 1)).any fun i =>
    ((cs.drop i).take 2 == ['/', '*']) &&
    (List.range (cs.length + 1)).any fun j =>
      decide (i + 2 ≤ j) && ((cs.drop j).take 2 == ['*', '/']) &&
      ((cs.drop (i + 2)).take (j - (i + 2))).all (· ≠ '\n')

/-- The denylist loop of `validate_generic`: some dangerous pattern
matches (all six raise the same `ValidationError`, so first-match equals
any-match). -/
def dangerousMatch (cs : List Char) : Bool :=
  sqlPairPattern cs || unionPattern cs || dashDashPattern cs || commentPattern cs ||
  (List.range (cs.length + 1)).any (fun i => tokenAt cs "exec".data i) ||
  (List.range (cs.length + 1)).any (fun i => tokenAt cs "eval".data i)

/-- The cleaning step of `validate_generic`:
`re.sub(r'[^\w\s\-\/\.\,\'\"]', '', input_value)`. -/
def validate_generic_cleaned (input_value : String) : String :=
  ⟨input_value.data.filter validateGenericAllowed⟩

/-- `validate_generic` from `src/core/validation.py`. -/
def validate_generic (input_value : String) : Except PyErr String :=
  let cleaned := validate_generic_cleaned input_value
  if cleaned.length < 2 then .error (.validationError "Input is too short")
  else
    let lower_input := pyLower cleaned
    if dangerousMatch lower_input.data then
      .error (.validationError "Input contains potentially unsafe patterns")
    else .ok cleaned

-- scratch checks
example : (validate_generic "SELECT * FROM users").isOk = false := by decide
example : (validate_generic "DROP TABLE samples;").isOk = false := by decide
example : validate_generic "homo sapiens" = .ok "homo sapiens" := by rfl
example : parse_date_range "2020-2023" = "publication_date:[2020-01-01 TO 2023-12-31]" := by decide
example : parse_date_range "2020-01-01:2023-12-31" = "publication_date:[2020-01-01 TO 2023-12-31]" := by decide
example : parse_date_range "last_5_years" = "publication_date:last_5_years" := by decide
example : parse_date_range "2020-2023\n" =
    "publication_date:[2020-01-01 TO 2023-12-31]" := by decide
example : parse_date_range "2020-2023\n\n" = "publication_date:2020-2023\n\n" := by decide
example : parse_date_range "2020-2023X" = "publication_date:2020-2023X" := by decide

/-! ## Concrete environments for witnesses and counterexamples -/

/-- Environment with empty tables, authorities answering "no result",
a fuzzy matcher finding nothing, and an unreachable LLM service. -/
def envEmpty : Env :=
  { ORGANISM_MAPPINGS := [], DISEASE_MAPPINGS := [], DATA_TYPE_MAPPINGS := [],
    query_ncbi_taxonomy := fun _ => .ok none,
    query_ncbi_mesh := fun _ => .ok none,
    find_best_match := fun _ _ _ => (none, 0),
    get_llm_service := .error (.other "llm unavailable") }

/-- `envEmpty` with an NCBI-taxonomy adapter that answers every query with
a Homo-sapiens record. -/
def envTaxo : Env :=
  { envEmpty with
    query_ncbi_taxonomy := fun _ =>
      .ok (some { canonical_name := "Homo sapiens", confidence := 95/100,
                  authority_id := some "9606" }) }

/-- `envEmpty` with a one-entry local mapping table per kind. -/
def envLocal : Env :=
  { envEmpty with
    ORGANISM_MAPPINGS :=
      [("human", { canonical_name := "Homo sapiens", authority_id := some "9606",
                   alternatives := ["human", "H. sapiens"] })],
    DISEASE_MAPPINGS := [("covid", { canonical_name := "COVID-19" })],
    DATA_TYPE_MAPPINGS := [("rnaseq", { canonical_name := "RNAseq" })] }

-- scratch checks
example : normalize_input envEmpty "Human!!" "organism" =
    .ok (fallback_record "Human!!" "Human") := by rfl
example : normalize_input envTaxo "human" "organism" =
    .ok { canonical_name := "Homo sapiens", confidence := 95/100,
          original_input := "human", source := "ncbi_taxonomy",
          authority_id := some "9606" } := by rfl
example : normalize_input envEmpty " Virus " "organism" =
    .ok { canonical_name := "Virus", confidence := 9/10,
          original_input := "virus", source := "special_case",
          is_special_case := true, expanded_terms := COMMON_VIRUSES } := by rfl
example : normalize_organism envLocal "Human" =
    .ok { canonical_name := "Homo sapiens", confidence := 1,
          original_input := "Human", source := "local_mapping",
          authority_id := some "9606",
          alternatives := ["human", "H. sapiens"] } := by rfl
example : build_search_query envEmpty none none none (some 5) none none =
    " samples:>=5" := by rfl
example : build_search_query envEmpty none none none (some 0) none none = "" := by rfl
example :
    build_search_query envEmpty (some { canonical_name := some "Homo sapiens" })
      none none none none none = "organism:(Homo sapiens)" := by rfl

/-! ## Helper lemmas on the cascade -/

theorem llmTier_ok {env : Env} {s k : String} {r : ResultRec}
    (h : llmTier env s k = .ok r) :
    r.original_input = s ∧ r.source = "llm" := by
  unfold llmTier at h
  split at h
  · exact absurd h (by simp)
  · split at h
    · exact absurd h (by simp)
    · simp only [Except.ok.injEq] at h
      subst h
      exact ⟨rfl, rfl⟩

theorem local_step_ok {m : List (String × ResultRec)} {s : String} {r : ResultRec}
    (h : local_step m s = some r) :
    r.original_input = s ∧ r.source = "local_mapping" := by
  unfold local_step at h
  split at h
  · simp only [Option.some.injEq] at h
    subst h
    exact ⟨rfl, rfl⟩
  · exact absurd h (by simp)

theorem authority_step_ok {resp : Except PyErr (Option ResultRec)} {s tag : String}
    {r : ResultRec} (h : authority_step resp s tag = some r) :
    r.original_input = s ∧ r.source = tag := by
  unfold authority_step at h
  split at h
  · exact absurd h (by simp)
  · exact absurd h (by simp)
  · split at h
    · simp only [Option.some.injEq] at h
      subst h
      exact ⟨rfl, rfl⟩
    · exact absurd h (by simp)

theorem fuzzy_step_ok {m : List (String × ResultRec)} {b : Option String × ℚ}
    {s : String} {next : Except PyErr ResultRec} {r : ResultRec}
    (h : fuzzy_step m b s next = .ok r) :
    (r.original_input = s ∧ r.source = "fuzzy_mapping") ∨ next = .ok r := by
  unfold fuzzy_step at h
  split at h
  · split at h
    · split at h
      · simp only [Except.ok.injEq] at h
        subst h
        exact Or.inl ⟨rfl, rfl⟩
      · exact absurd h (by simp)
    · exact Or.inr h
  · exact Or.inr h

theorem normalize_organism_ok {env : Env} {s : String} {r : ResultRec}
    (h : normalize_organism env s = .ok r) :
    r.original_input = s ∧
    (r.source = "local_mapping" ∨ r.source = "ncbi_taxonomy" ∨
     r.source = "fuzzy_mapping" ∨ r.source = "llm") := by
  unfold normalize_organism at h
  split at h
  · next heq =>
    simp only [Except.ok.injEq] at h
    subst h
    have := local_step_ok heq
    exact ⟨this.1, Or.inl this.2⟩
  · split at h
    · next heq =>
      simp only [Except.ok.injEq] at h
      subst h
      have := authority_step_ok heq
      exact ⟨this.1, Or.inr (Or.inl this.2)⟩
    · rcases fuzzy_step_ok h with ⟨h1, h2⟩ | hnext
      · exact ⟨h1, Or.inr (Or.inr (Or.inl h2))⟩
      · have := llmTier_ok hnext
        exact ⟨this.1, Or.inr (Or.inr (Or.inr this.2))⟩

theorem normalize_disease_ok {env : Env} {s : String} {r : ResultRec}
    (h : normalize_disease env s = .ok r) :
    r.original_input = s ∧
    (r.source = "local_mapping" ∨ r.source = "ncbi_mesh" ∨
     r.source = "fuzzy_mapping" ∨ r.source = "llm") := by
  unfold normalize_disease at h
  split at h
  · next heq =>
    simp only [Except.ok.injEq] at h
    subst h
    have := local_step_ok heq
    exact ⟨this.1, Or.inl this.2⟩
  · split at h
    · next heq =>
      simp only [Except.ok.injEq] at h
      subst h
      have := authority_step_ok heq
      exact ⟨this.1, Or.inr (Or.inl this.2)⟩
    · rcases fuzzy_step_ok h with ⟨h1, h2⟩ | hnext
      · exact ⟨h1, Or.inr (Or.inr (Or.inl h2))⟩
      · have := llmTier_ok hnext
        exact ⟨this.1, Or.inr (Or.inr (Or.inr this.2))⟩

theorem normalize_data_type_ok {env : Env} {s : String} {r : ResultRec}
    (h : normalize_data_type env s = .ok r) :
    r.original_input = s ∧
    (r.source = "local_mapping" ∨ r.source = "fuzzy_mapping" ∨
     r.source = "keyword_match" ∨ r.source = "llm") := by
  unfold normalize_data_type at h
  split at h
  · next heq =>
    simp only [Except.ok.injEq] at h
    subst h
    have := local_step_ok heq
    exact ⟨this.1, Or.inl this.2⟩
  · rcases fuzzy_step_ok h with ⟨h1, h2⟩ | hnext
    · exact ⟨h1, Or.inr (Or.inl h2)⟩
    · split at hnext
      · simp only [Except.ok.injEq] at hnext
        subst hnext
        exact ⟨rfl, Or.inr (Or.inr (Or.inl rfl))⟩
      · have := llmTier_ok hnext
        exact ⟨this.1, Or.inr (Or.inr (Or.inr this.2))⟩

/-- The provenance tags `normalize_input` can actually produce
(`user_override` is attached only by the interactive UI layer,
`src/ui/interactive.py`, outside the resolver). -/
def codeSourceTags : List String :=
  ["local_mapping", "ncbi_taxonomy", "ncbi_mesh", "fuzzy_mapping",
   "keyword_match", "llm", "special_case", "generic", "fallback"]

/-- The nine provenance tags enumerated by the spec. -/
def specSourceTags : List String :=
  ["local_mapping", "authority_lookup", "fuzzy_mapping", "keyword_match",
   "llm", "special_case", "generic", "user_override", "fallback"]

theorem run_normalizer_ok {env : Env} {c k : String} {r : ResultRec}
    (h : run_normalizer env c k = .ok r) :
    r.original_input = c ∧
    (r.source = "local_mapping" ∨ r.source = "ncbi_taxonomy" ∨ r.source = "ncbi_mesh" ∨
     r.source = "fuzzy_mapping" ∨ r.source = "keyword_match" ∨ r.source = "llm" ∨
     r.source = "generic") := by
  unfold run_normalizer at h
  split_ifs at h
  · obtain ⟨h1, h2⟩ := normalize_organism_ok h
    exact ⟨h1, by tauto⟩
  · obtain ⟨h1, h2⟩ := normalize_disease_ok h
    exact ⟨h1, by tauto⟩
  · obtain ⟨h1, h2⟩ := normalize_data_type_ok h
    exact ⟨h1, by tauto⟩
  · simp only [Except.ok.injEq] at h
    subst h
    exact ⟨rfl, by tauto⟩

theorem special_hit_elim {c k : String} (h : special_hit c k = true) :
    ∃ sc, dictGet SPECIAL_CASE_INPUTS (pyLower c) = some sc ∧ sc.type = k := by
  unfold special_hit at h
  split at h
  · next sc heq =>
    exact ⟨sc, heq, by simpa using h⟩
  · exact absurd h (by simp)

theorem handle_special_case_eq {x : String} {sc : SpecialCase}
    (h : dictGet SPECIAL_CASE_INPUTS x = some sc) :
    handle_special_case x =
      .ok { canonical_name := pyCapitalize x, confidence := 9/10,
            original_input := x, source := "special_case",
            is_special_case := true, expanded_terms := sc.expansion } := by
  unfold handle_special_case
  rw [h]

theorem normalize_input_ok {env : Env} {s k : String} {r : ResultRec}
    (h : normalize_input env s k = .ok r) :
    r.source ∈ codeSourceTags ∧
    (r.source = "special_case" → r.original_input = pyLower (clean_input s)) ∧
    (r.source = "fallback" → r.original_input = s) ∧
    (r.source ≠ "special_case" → r.source ≠ "fallback" →
      r.original_input = clean_input s) := by
  unfold normalize_input at h
  split at h
  · exact absurd h (by simp)
  · dsimp only at h
    split at h
    · next hsp =>
      obtain ⟨sc, hget, -⟩ := special_hit_elim hsp
      rw [handle_special_case_eq hget] at h
      simp only [Except.ok.injEq] at h
      subst h
      refine ⟨by simp [codeSourceTags], fun _ => rfl, ?_, ?_⟩
      · intro hf
        exact absurd hf (by simp)
      · intro hns _
        exact absurd rfl hns
    · split at h
      · next heq =>
        simp only [Except.ok.injEq] at h
        subst h
        obtain ⟨ho, hs⟩ := run_normalizer_ok heq
        refine ⟨?_, ?_, ?_, fun _ _ => ho⟩
        · rcases hs with h'|h'|h'|h'|h'|h'|h' <;> simp [codeSourceTags, h']
        · intro hc
          rcases hs with h'|h'|h'|h'|h'|h'|h' <;>
            exact absurd (h'.symm.trans hc) (by decide)
        · intro hc
          rcases hs with h'|h'|h'|h'|h'|h'|h' <;>
            exact absurd (h'.symm.trans hc) (by decide)
      · simp only [Except.ok.injEq] at h
        subst h
        refine ⟨by simp [codeSourceTags, fallback_record], ?_, fun _ => rfl, ?_⟩
        · intro hc
          exact absurd hc (by simp [fallback_record])
        · intro _ hnf
          exact absurd rfl hnf

/-! ## Support lemmas for the query composer -/

theorem foldl_sep_len (sep : String) :
    ∀ (xs : List String) (acc : String),
      acc.length ≤ (xs.foldl (fun a p => a ++ sep ++ p) acc).length := by
  intro xs
  induction xs with
  | nil => intro acc; simp
  | cons x rest ih =>
    intro acc
    calc acc.length ≤ (acc ++ sep ++ x).length := by
          simp [String.length_append]
          omega
      _ ≤ _ := ih _

theorem pyJoin_ne_empty {sep : String} {xs : List String}
    (hne : xs ≠ []) (h : ∀ x ∈ xs, x ≠ "") : pyJoin sep xs ≠ "" := by
  cases xs with
  | nil => exact absurd rfl hne
  | cons x rest =>
    have hx : x ≠ "" := h x (by simp)
    have hxl : x.length ≠ 0 := by
      intro h0
      apply hx
      cases x with
      | mk d =>
        cases d with
        | nil => rfl
        | cons a as => simp [String.length] at h0
    have hfold := foldl_sep_len sep rest x
    intro h0
    have := congrArg String.length h0
    simp only [pyJoin] at this
    rw [this] at hfold
    simp at hfold
    omega

theorem parse_date_range_ne_empty (s : String) : parse_date_range s ≠ "" := by
  unfold parse_date_range
  split
  · intro h0
    have := congrArg String.length h0
    simp +decide [String.length_append] at this
  · split
    · intro h0
      have := congrArg String.length h0
      simp +decide [String.length_append] at this
    · intro h0
      have := congrArg String.length h0
      simp +decide [String.length_append] at this

theorem filter_parts_mem_ne {ms : Option Int} {dr : Option String}
    {af : Option (List (String × String))} :
    ∀ x ∈ filter_parts ms dr af, x ≠ "" := by
  intro x hx
  unfold filter_parts at hx
  simp only [List.mem_append] at hx
  rcases hx with (hx | hx) | hx
  · split at hx
    · split at hx
      · simp only [List.mem_singleton] at hx
        subst hx
        intro h0
        have := congrArg String.length h0
        simp +decide [String.length_append] at this
      · simp at hx
    · simp at hx
  · split at hx
    · split at hx
      · simp only [List.mem_singleton] at hx
        subst hx
        exact parse_date_range_ne_empty _
      · simp at hx
    · simp at hx
  · split at hx
    · split at hx
      · simp only [List.mem_map] at hx
        obtain ⟨p, -, hp⟩ := hx
        subst hp
        intro h0
        have := congrArg String.length h0
        simp +decide [String.length_append] at this
      · simp at hx
    · simp at hx

/-! ## Claims -/

/-- C1, counterexample: the successful authority-lookup tier tags its
result `source = "ncbi_taxonomy"` (resp. `"ncbi_mesh"`), which is not one
of the nine provenance tags enumerated by the spec — in particular it is
not `"authority_lookup"`. -/
theorem C1_source_tag_counterexample :
    normalize_input envTaxo "human" "organism" =
      .ok { canonical_name := "Homo sapiens", confidence := 95/100,
            original_input := "human", source := "ncbi_taxonomy",
            authority_id := some "9606" } ∧
    "ncbi_taxonomy" ∉ specSourceTags :=
  ⟨by rfl, by decide⟩

/-- C1, amended: every result of `normalize_input` carries one of the nine
tags the code can produce — `{local_mapping, ncbi_taxonomy, ncbi_mesh,
fuzzy_mapping, keyword_match, llm, special_case, generic, fallback}`
(`user_override` is attached only by the interactive UI layer); a
successful authority-lookup tier tags `source = ncbi_taxonomy` for
organisms and `source = ncbi_mesh` for diseases, not `authority_lookup`. -/
theorem C1_source_tags :
    ∀ (env : Env) (s k : String) (r : ResultRec),
      (normalize_input env s k = .ok r → r.source ∈ codeSourceTags) ∧
      (∀ rec : ResultRec, local_step env.ORGANISM_MAPPINGS s = none →
        env.query_ncbi_taxonomy s = .ok (some rec) → rec.canonical_name ≠ "" →
        normalize_organism env s =
          .ok { rec with original_input := s, source := "ncbi_taxonomy" }) ∧
      (∀ rec : ResultRec, local_step env.DISEASE_MAPPINGS s = none →
        env.query_ncbi_mesh s = .ok (some rec) → rec.canonical_name ≠ "" →
        normalize_disease env s =
          .ok { rec with original_input := s, source := "ncbi_mesh" }) := by
  intro env s k r
  refine ⟨fun h => (normalize_input_ok h).1, ?_, ?_⟩
  · intro rec hloc hq hcn
    unfold normalize_organism authority_step
    rw [hloc, hq]
    dsimp only
    rw [if_pos hcn]
  · intro rec hloc hq hcn
    unfold normalize_disease authority_step
    rw [hloc, hq]
    dsimp only
    rw [if_pos hcn]

/-- Witness for `C1_source_tags` at a concrete environment and input. -/
theorem C1_source_tags_witness :
    "ncbi_taxonomy" ∈ codeSourceTags ∧
    normalize_organism envTaxo "mouse" =
      .ok { canonical_name := "Homo sapiens", confidence := 95/100,
            original_input := "mouse", source := "ncbi_taxonomy",
            authority_id := some "9606" } := by
  constructor
  · exact (C1_source_tags envTaxo "mouse" "organism"
      { canonical_name := "Homo sapiens", confidence := 95/100,
        original_input := "mouse", source := "ncbi_taxonomy",
        authority_id := some "9606" }).1 (by rfl)
  · exact (C1_source_tags envTaxo "mouse" "organism" {}).2.1
      { canonical_name := "Homo sapiens", confidence := 95/100,
        authority_id := some "9606" } rfl rfl (by decide)

/-- C2: `normalize_input` raises `NormalizationError` exactly when the
input is empty; for a non-empty input it always returns a record, and if
the tiered cascade raises any exception the returned record is the
fallback record (capitalized cleaned input, confidence `0.5`,
source `"fallback"`). -/
theorem C2_total_resolution :
    ∀ (env : Env) (s k : String),
      (s = "" → normalize_input env s k =
        .error (.normalizationError ("Empty input for " ++ k))) ∧
      (s ≠ "" → ∃ r, normalize_input env s k = .ok r) ∧
      (∀ e, s ≠ "" → special_hit (clean_input s) k = false →
        run_normalizer env (clean_input s) k = .error e →
        normalize_input env s k = .ok (fallback_record s (clean_input s))) := by
  intro env s k
  refine ⟨?_, ?_, ?_⟩
  · intro hs
    unfold normalize_input
    rw [if_pos hs]
  · intro hs
    unfold normalize_input
    rw [if_neg hs]
    dsimp only
    by_cases hsp : special_hit (clean_input s) k = true
    · rw [if_pos hsp]
      obtain ⟨sc, hget, -⟩ := special_hit_elim hsp
      exact ⟨_, handle_special_case_eq hget⟩
    · rw [if_neg hsp]
      cases hrn : run_normalizer env (clean_input s) k with
      | ok r => exact ⟨r, rfl⟩
      | error e => exact ⟨fallback_record s (clean_input s), rfl⟩
  · intro e hs hsp hrn
    unfold normalize_input
    rw [if_neg hs]
    dsimp only
    rw [if_neg (by simp [hsp])]
    rw [hrn]

/-- Witness for `C2_total_resolution`: the empty input raises, a non-empty
input resolves, and an LLM-tier exception degrades to the fallback
record. -/
theorem C2_total_resolution_witness :
    normalize_input envEmpty "" "organism" =
      .error (.normalizationError "Empty input for organism") ∧
    (∃ r, normalize_input envEmpty "Human!!" "organism" = .ok r) ∧
    normalize_input envEmpty "Human!!" "organism" =
      .ok (fallback_record "Human!!" "Human") := by
  refine ⟨(C2_total_resolution envEmpty "" "organism").1 rfl,
          (C2_total_resolution envEmpty "Human!!" "organism").2.1 (by decide), ?_⟩
  exact (C2_total_resolution envEmpty "Human!!" "organism").2.2
    (.other "llm unavailable") (by decide) (by rfl) (by rfl)

/-- C3, counterexample: on the special-case path the stored
`original_input` is the lower-cased cleaned input, not the raw string the
user supplied — resolving `" Virus "` records `original_input = "virus"`. -/
theorem C3_original_input_counterexample :
    normalize_input envEmpty " Virus " "organism" =
      .ok { canonical_name := "Virus", confidence := 9/10,
            original_input := "virus", source := "special_case",
            is_special_case := true, expanded_terms := COMMON_VIRUSES } ∧
    "virus" ≠ " Virus " :=
  ⟨by rfl, by decide⟩

/-- C3, amended: `original_input` is the cleaned input on every cascade
tier, the lower-cased cleaned input on the special-case path, and the raw
input string only on the ultimate fallback path. -/
theorem C3_original_input :
    ∀ (env : Env) (s k : String) (r : ResultRec),
      normalize_input env s k = .ok r →
      (r.source = "special_case" → r.original_input = pyLower (clean_input s)) ∧
      (r.source = "fallback" → r.original_input = s) ∧
      (r.source ≠ "special_case" → r.source ≠ "fallback" →
        r.original_input = clean_input s) :=
  fun _ _ _ _ h => (normalize_input_ok h).2

/-- Witness for `C3_original_input` at a concrete fallback resolution. -/
theorem C3_original_input_witness :
    (fallback_record "Human@@" "Human").original_input = "Human@@" :=
  (C3_original_input envEmpty "Human@@" "organism"
    (fallback_record "Human@@" "Human") (by rfl)).2.1 (by rfl)

/-- Two consecutive whitespace characters occur somewhere in the list. -/
def hasConsecWS : List Char → Bool
  | a :: b :: rest => (isPySpace a && isPySpace b) || hasConsecWS (b :: rest)
  | _ => false

theorem collapseWS_space_only :
    ∀ (b : Bool) (cs : List Char) (c : Char),
      c ∈ collapseWS b cs → isPySpace c = true → c = ' ' := by
  intro b cs
  induction cs generalizing b with
  | nil => intro c h; simp [collapseWS] at h
  | cons a as ih =>
    intro c h hsp
    unfold collapseWS at h
    split at h
    · split at h
      · exact ih true c h hsp
      · rcases List.mem_cons.mp h with hc | hc
        · exact hc
        · exact ih true c hc hsp
    · next ha =>
      rcases List.mem_cons.mp h with hc | hc
      · subst hc
        exact absurd hsp (by simp [ha])
      · exact ih false c hc hsp

/-- C4, counterexample: disallowed characters are removed *after*
whitespace collapsing, so removing one between two spaces leaves two
consecutive spaces: `clean_input "a @ b" = "a  b"`. -/
theorem C4_clean_input_counterexample :
    clean_input "a @ b" = "a  b" ∧
    hasConsecWS (clean_input "a @ b").data = true :=
  ⟨by rfl, by decide⟩

/-- C4, amended: every character of `clean_input`'s output is on the
allow-list (word character, whitespace, hyphen, period) and every
whitespace character in the output is a single space character; but
because disallowed characters are removed after whitespace collapsing,
the output may still contain two consecutive spaces. -/
theorem C4_clean_input_allowed :
    ∀ (s : String) (c : Char), c ∈ (clean_input s).data →
      cleanAllowed c = true ∧ (isPySpace c = true → c = ' ') := by
  intro s c hc
  unfold clean_input at hc
  simp only [List.mem_filter] at hc
  exact ⟨hc.2, collapseWS_space_only false _ c hc.1⟩

/-- Witness for `C4_clean_input_allowed` at a concrete input and
character. -/
theorem C4_clean_input_allowed_witness :
    cleanAllowed 'a' = true ∧ (isPySpace 'a' = true → 'a' = ' ') :=
  C4_clean_input_allowed "a @ b" 'a' (by decide)

/-- C5: an exact (case-insensitive) hit in the local mapping table of any
kind returns the template cloned with `confidence = 1.0` and
`source = "local_mapping"`, for every possible behaviour of the later
tiers (the adapters are universally quantified, so no later tier can
influence the result). -/
theorem C5_local_mapping_hit :
    ∀ (env : Env) (s : String) (tmpl : ResultRec),
      (dictGet env.ORGANISM_MAPPINGS (pyLower s) = some tmpl →
        normalize_organism env s =
          .ok { tmpl with confidence := 1, original_input := s,
                          source := "local_mapping" }) ∧
      (dictGet env.DISEASE_MAPPINGS (pyLower s) = some tmpl →
        normalize_disease env s =
          .ok { tmpl with confidence := 1, original_input := s,
                          source := "local_mapping" }) ∧
      (dictGet env.DATA_TYPE_MAPPINGS (pyLower s) = some tmpl →
        normalize_data_type env s =
          .ok { tmpl with confidence := 1, original_input := s,
                          source := "local_mapping" }) := by
  intro env s tmpl
  refine ⟨?_, ?_, ?_⟩ <;> intro h
  · unfold normalize_organism local_step
    rw [h]
  · unfold normalize_disease local_step
    rw [h]
  · unfold normalize_data_type local_step
    rw [h]

/-- Witness for `C5_local_mapping_hit` at a concrete one-entry table. -/
theorem C5_local_mapping_hit_witness :
    normalize_organism envLocal "Human" =
      .ok { canonical_name := "Homo sapiens", confidence := 1,
            original_input := "Human", source := "local_mapping",
            authority_id := some "9606",
            alternatives := ["human", "H. sapiens"] } :=
  (C5_local_mapping_hit envLocal "Human"
    { canonical_name := "Homo sapiens", authority_id := some "9606",
      alternatives := ["human", "H. sapiens"] }).1 (by rfl)

/-- C6: a cleaned, case-folded term found in `SPECIAL_CASE_INPUTS` with a
declared kind equal to the requested kind short-circuits the whole cascade
(for every adapter behaviour) into a result with `source = "special_case"`,
`confidence = 0.9`, `is_special_case = true` and `expanded_terms` equal to
the declared expansion; when the declared kind differs, the cascade runs
normally. -/
theorem C6_special_case_expander :
    ∀ (env : Env) (s k : String) (sc : SpecialCase),
      (s ≠ "" → dictGet SPECIAL_CASE_INPUTS (pyLower (clean_input s)) = some sc →
        sc.type = k →
        normalize_input env s k =
          .ok { canonical_name := pyCapitalize (pyLower (clean_input s)),
                confidence := 9/10,
                original_input := pyLower (clean_input s),
                source := "special_case", is_special_case := true,
                expanded_terms := sc.expansion }) ∧
      (s ≠ "" → dictGet SPECIAL_CASE_INPUTS (pyLower (clean_input s)) = some sc →
        sc.type ≠ k →
        normalize_input env s k =
          match run_normalizer env (clean_input s) k with
          | .ok r => .ok r
          | .error _ => .ok (fallback_record s (clean_input s))) := by
  intro env s k sc
  constructor
  · intro hs hget hty
    unfold normalize_input
    rw [if_neg hs]
    dsimp only
    rw [if_pos (by unfold special_hit; rw [hget]; simp [hty])]
    exact handle_special_case_eq hget
  · intro hs hget hty
    unfold normalize_input
    rw [if_neg hs]
    dsimp only
    rw [if_neg (by unfold special_hit; rw [hget]; simp [hty])]

/-- Witness for `C6_special_case_expander`: a matching-kind hit
short-circuits; a mismatched kind falls through to the cascade. -/
theorem C6_special_case_expander_witness :
    normalize_input envEmpty "Viruses" "organism" =
      .ok { canonical_name := "Viruses", confidence := 9/10,
            original_input := "viruses", source := "special_case",
            is_special_case := true, expanded_terms := COMMON_VIRUSES } ∧
    normalize_input envEmpty "cancer" "organism" =
      .ok (fallback_record "cancer" "cancer") := by
  constructor
  · exact (C6_special_case_expander envEmpty "Viruses" "organism"
      ⟨"organism", COMMON_VIRUSES⟩).1 (by decide) (by rfl) rfl
  · have h := (C6_special_case_expander envEmpty "cancer" "organism"
      ⟨"disease", ["neoplasm", "tumor", "carcinoma", "leukemia", "lymphoma"]⟩).2
      (by decide) (by rfl) (by decide)
    exact h.trans (by rfl)

/-- C7: `build_search_query` returns either the deterministic composition
or an LLM-expanded string; the LLM string is returned only when it is
strictly longer (in characters) than the deterministic composition, and
any exception during LLM expansion is non-fatal — the deterministic
string is returned. -/
theorem C7_llm_query_gate :
    ∀ (env : Env) (o d t : Option EntityInfo) (ms : Option Int)
      (dr : Option String) (af : Option (List (String × String))),
      (build_search_query env o d t ms dr af = deterministic_query o d t ms dr af ∨
       ((build_search_query env o d t ms dr af).length >
          (deterministic_query o d t ms dr af).length ∧
        enhance_query_with_llm env (entity_names o d t).1 (entity_names o d t).2.1
          (entity_names o d t).2.2 = .ok (build_search_query env o d t ms dr af))) ∧
      (∀ e, enhance_query_with_llm env (entity_names o d t).1
          (entity_names o d t).2.1 (entity_names o d t).2.2 = .error e →
        build_search_query env o d t ms dr af = deterministic_query o d t ms dr af) := by
  intro env o d t ms dr af
  unfold build_search_query deterministic_query
  rcases hE : entity_names o d t with ⟨na, nd, nt⟩
  dsimp only
  by_cases hg : (optTruthy na || optTruthy nd || optTruthy nt) = true
  · rw [if_pos hg]
    cases he : enhance_query_with_llm env na nd nt with
    | error e => exact ⟨Or.inl rfl, fun e' _ => rfl⟩
    | ok q =>
      dsimp only
      constructor
      · by_cases hacc :
          (decide (q ≠ "") &&
            decide (q.length > (combined_from na nd nt ms dr af).length)) = true
        · rw [if_pos hacc]
          simp only [Bool.and_eq_true, decide_eq_true_eq] at hacc
          exact Or.inr ⟨hacc.2, rfl⟩
        · rw [if_neg hacc]
          exact Or.inl rfl
      · intro e' he'
        exact absurd he' (by simp)
  · rw [if_neg hg]
    exact ⟨Or.inl rfl, fun e _ => rfl⟩

/-- Witness for `C7_llm_query_gate`: with an unreachable LLM service the
deterministic composition is returned. -/
theorem C7_llm_query_gate_witness :
    build_search_query envEmpty (some { canonical_name := some "Homo sapiens" })
      none none none none none = "organism:(Homo sapiens)" := by
  have h := (C7_llm_query_gate envEmpty
    (some { canonical_name := some "Homo sapiens" }) none none none none none).2
    (.other "llm unavailable") (by rfl)
  exact h.trans (by rfl)

theorem dateDate_imp_yearYear_none {s : String} {p : String × String}
    (h : dateDateMatch s = some p) : yearYearMatch s = none := by
  unfold dateDateMatch at h
  dsimp only at h
  split at h
  · next hc =>
    simp only [Bool.and_eq_true, Bool.or_eq_true, decide_eq_true_eq, beq_iff_eq] at hc
    have hlen : s.data.length = 21 ∨ s.data.length = 22 := by
      have hd : s.data.length = 21 ∨
          (s.data.length = 22 ∧ s.data.getD 21 ' ' = '\n') := by tauto
      rcases hd with h' | ⟨h', -⟩
      · exact Or.inl h'
      · exact Or.inr h'
    unfold yearYearMatch
    dsimp only
    rw [if_neg]
    intro hcon
    simp only [Bool.and_eq_true, Bool.or_eq_true, decide_eq_true_eq, beq_iff_eq] at hcon
    have h910 : s.data.length = 9 ∨ s.data.length = 10 := by
      have hd : s.data.length = 9 ∨
          (s.data.length = 10 ∧ s.data.getD 9 ' ' = '\n') := by tauto
      rcases hd with h' | ⟨h', -⟩
      · exact Or.inl h'
      · exact Or.inr h'
    rcases hlen with h' | h' <;> rcases h910 with h'' | h'' <;> omega
  · exact absurd h (by simp)

/-- C8, counterexample: Python's `$` anchor also matches just before one
trailing newline, so `"2020-2023\n"` — which is not a string of the form
`YYYY-YYYY` (nor `YYYY-MM-DD:YYYY-MM-DD`) — is rendered as the year range
instead of being passed through verbatim as the claim requires. -/
theorem C8_parse_date_range_counterexample :
    ("2020-2023\n").data.length ≠ 9 ∧ ("2020-2023\n").data.length ≠ 21 ∧
    parse_date_range "2020-2023\n" =
      "publication_date:[2020-01-01 TO 2023-12-31]" ∧
    parse_date_range "2020-2023\n" ≠ "publication_date:2020-2023\n" :=
  ⟨by decide, by decide, by rfl, by decide⟩

/-- C8, amended: `parse_date_range` renders any string matching
`^(\d{4})-(\d{4})$` under Python semantics — the nine pattern characters
optionally followed by one trailing newline — as a year range, renders any
string matching `^(\d{4}-\d{2}-\d{2}):(\d{4}-\d{2}-\d{2})$` (again
with an optional single trailing newline) as a date range, and passes
every string matching neither pattern through verbatim after the
`publication_date:` prefix (it is a total function — it never raises). -/
theorem C8_parse_date_range :
    ∀ (s sy ey sd ed : String),
      (yearYearMatch s = some (sy, ey) →
        parse_date_range s =
          "publication_date:[" ++ sy ++ "-01-01 TO " ++ ey ++ "-12-31]") ∧
      (dateDateMatch s = some (sd, ed) →
        parse_date_range s =
          "publication_date:[" ++ sd ++ " TO " ++ ed ++ "]") ∧
      (yearYearMatch s = none → dateDateMatch s = none →
        parse_date_range s = "publication_date:" ++ s) := by
  intro s sy ey sd ed
  refine ⟨?_, ?_, ?_⟩
  · intro h
    unfold parse_date_range
    rw [h]
  · intro h
    unfold parse_date_range
    rw [dateDate_imp_yearYear_none h, h]
  · intro hy hd
    unfold parse_date_range
    rw [hy, hd]

/-- Witness for `C8_parse_date_range` on the three concrete forms, plus a
year range carrying the trailing newline that Python's `$` accepts. -/
theorem C8_parse_date_range_witness :
    parse_date_range "2020-2023" = "publication_date:[2020-01-01 TO 2023-12-31]" ∧
    parse_date_range "2020-01-01:2023-12-31" =
      "publication_date:[2020-01-01 TO 2023-12-31]" ∧
    parse_date_range "last_5_years" = "publication_date:last_5_years" ∧
    parse_date_range "2021-2022\n" = "publication_date:[2021-01-01 TO 2022-12-31]" :=
  ⟨(C8_parse_date_range "2020-2023" "2020" "2023" "" "").1 (by rfl),
   (C8_parse_date_range "2020-01-01:2023-12-31" "" "" "2020-01-01"
      "2023-12-31").2.1 (by rfl),
   (C8_parse_date_range "last_5_years" "" "" "" "").2.2 (by rfl) (by rfl),
   (C8_parse_date_range "2021-2022\n" "2021" "2022" "" "").1 (by rfl)⟩

/-- C9: `validate_generic` fails with `ValidationError` exactly when the
cleaned input is shorter than 2 characters or the lower-cased cleaned
input matches one of the injection-style denylist patterns, and otherwise
returns the cleaned string; in particular both SQL-injection examples are
rejected. -/
theorem C9_validate_generic :
    (∀ s : String,
      (((validate_generic_cleaned s).length < 2 ∨
         dangerousMatch (pyLower (validate_generic_cleaned s)).data = true) ∧
        (validate_generic s).isOk = false) ∨
      (2 ≤ (validate_generic_cleaned s).length ∧
        dangerousMatch (pyLower (validate_generic_cleaned s)).data = false ∧
        validate_generic s = .ok (validate_generic_cleaned s))) ∧
    (validate_generic "SELECT * FROM users").isOk = false ∧
    (validate_generic "DROP TABLE samples;").isOk = false := by
  refine ⟨?_, by decide, by decide⟩
  intro s
  unfold validate_generic
  dsimp only
  by_cases hlen : (validate_generic_cleaned s).length < 2
  · rw [if_pos hlen]
    exact Or.inl ⟨Or.inl hlen, rfl⟩
  · rw [if_neg hlen]
    by_cases hdan : dangerousMatch (pyLower (validate_generic_cleaned s)).data = true
    · rw [if_pos hdan]
      exact Or.inl ⟨Or.inr hdan, rfl⟩
    · rw [if_neg hdan]
      exact Or.inr ⟨by omega, by simpa using hdan, rfl⟩

/-- C10: with no entities and at least one effective filter,
`build_search_query` returns a string that begins with a single space
followed by the `AND`-joined filter clauses; the result does not depend on
the environment (no LLM expansion is attempted); and `min_samples = 0` is
treated exactly like an absent `min_samples` (no samples clause). -/
theorem C10_filters_only_query :
    ∀ (env : Env) (ms : Option Int) (dr : Option String)
      (af : Option (List (String × String))),
      (filter_parts ms dr af ≠ [] →
        build_search_query env none none none ms dr af =
          " " ++ pyJoin " AND " (filter_parts ms dr af)) ∧
      (∀ env', build_search_query env none none none ms dr af =
        build_search_query env' none none none ms dr af) ∧
      build_search_query env none none none (some 0) dr af =
        build_search_query env none none none none dr af := by
  intro env ms dr af
  refine ⟨?_, fun _ => rfl, rfl⟩
  intro hne
  have hf : pyJoin " AND " (filter_parts ms dr af) ≠ "" :=
    pyJoin_ne_empty hne filter_parts_mem_ne
  show (if pyJoin " AND " (filter_parts ms dr af) ≠ "" then
          "" ++ " " ++ pyJoin " AND " (filter_parts ms dr af)
        else "") =
    " " ++ pyJoin " AND " (filter_parts ms dr af)
  rw [if_pos hf]
  rfl

/-- Witness for `C10_filters_only_query` at a concrete filter set. -/
theorem C10_filters_only_query_witness :
    build_search_query envEmpty none none none (some 5) (some "2020-2023") none =
      " samples:>=5 AND publication_date:[2020-01-01 TO 2023-12-31]" := by
  have h := (C10_filters_only_query envEmpty (some 5) (some "2020-2023") none).1
    (by decide)
  exact h.trans (by rfl)
